import Mathlib

/-!
Verification of the `python-connect-box` client library.

This file gives a shallow embedding, in Lean, of the session/authentication
lifecycle, the getter/setter protocol adapter, and the XML response decoders
of the repository (`connect_box/__init__.py`, `connect_box/parsers.py`,
`connect_box/data.py`), and proves or refutes the specification claims
about them.

Modelling conventions:
* Python exceptions are values of `PyErr`; fallible code returns
  `Except PyErr α`.  Uncaught exceptions simply propagate as `.error`.
* HTTP traffic is abstracted to `HttpResponse` (status, `sessionToken`
  cookie, body) and `Transport` (a response, or a transport-level failure,
  i.e. `asyncio.TimeoutError` / `aiohttp.ClientError`).
* Response bodies are either malformed (so `element_tree.fromstring`
  raises `ParseError`) or an already-parsed `Xml` tree; the text-level XML
  grammar itself is not modelled, no claim depends on it.
* Each embedded coroutine is a pure function from its explicit responses
  and the client state to the new state, the list of HTTP requests it
  issued, and its result.
-/

/-- The Python exception kinds reachable in the embedded code: the four
library exceptions from `connect_box/exceptions.py`, and the built-in /
stdlib exceptions the decoders can raise. -/
inductive PyErr where
  | parseError
  | typeError
  | valueError
  | attributeError
  | keyError
  | indexError
  | connectBoxError
  | connectionError
  | loginError
  | noDataAvailable
deriving DecidableEq, Repr

instance exceptDecEq {ε α : Type} [DecidableEq ε] [DecidableEq α] :
    DecidableEq (Except ε α) := fun a b =>
  match a, b with
  | .error e1, .error e2 =>
    if h : e1 = e2 then .isTrue (by rw [h])
    else .isFalse (fun hh => h (Except.error.inj hh))
  | .error _, .ok _ => .isFalse (fun hh => Except.noConfusion hh)
  | .ok _, .error _ => .isFalse (fun hh => Except.noConfusion hh)
  | .ok x, .ok y =>
    if h : x = y then .isTrue (by rw [h])
    else .isFalse (fun hh => h (Except.ok.inj hh))

/-- Numeric value of an ASCII digit character. -/
def digitVal (c : Char) : Nat := c.toNat - 48

/-- Digit character for a value below ten. -/
def dch (k : Nat) : Char := Char.ofNat (48 + k)

/-- The two-digit decimal rendering of a number below one hundred. -/
def pad2 (n : Nat) : List Char := [dch (n / 10), dch (n % 10)]

def digitsValAux : List Char → Nat → Option Nat
  | [], acc => some acc
  | c :: rest, acc =>
    if c.isDigit then digitsValAux rest (acc * 10 + digitVal c) else none

/-- Value of a nonempty all-digit character list; `none` otherwise. -/
def digitsVal (l : List Char) : Option Nat :=
  if l.isEmpty then none else digitsValAux l 0

def pyIntChars : List Char → Except PyErr Int
  | [] => .error .valueError
  | c :: rest =>
    if c = '-' then
      match digitsVal rest with
      | some n => .ok (-(n : Int))
      | none => .error .valueError
    else
      match digitsVal (c :: rest) with
      | some n => .ok (n : Int)
      | none => .error .valueError

/-- Embedding of Python `int(str)` restricted to the literal forms the
device produces: an optional minus sign followed by one or more ASCII
digits.  Any other literal raises `ValueError`. -/
def pyIntStr (s : String) : Except PyErr Int :=
  pyIntChars s.data

/-- Python `int(x)` applied to an element text: `int(None)` raises
`TypeError`, a non-numeric string raises `ValueError`. -/
def pyInt : Option String → Except PyErr Int
  | none => .error .typeError
  | some s => pyIntStr s

def floatLitCore (l : List Char) : Bool :=
  match l.span (fun c => c.isDigit) with
  | (ds, []) => !ds.isEmpty
  | (ds, '.' :: rest) => (!ds.isEmpty || !rest.isEmpty) && rest.all (fun c => c.isDigit)
  | _ => false

/-- Embedding of Python `float(x)`: only success or failure is tracked
(`TypeError` on `None`, `ValueError` on a bad literal); on success the
validated literal itself is kept, since no claim depends on
floating-point arithmetic. -/
def pyFloat : Option String → Except PyErr String
  | none => .error .typeError
  | some s =>
    let l := if s.data.head? = some '-' then s.data.tail else s.data
    if floatLitCore l then .ok s else .error .valueError

/-- Embedding of Python `str.split(sep)` for a one-character separator. -/
def splitOnChar (c : Char) : List Char → List (List Char)
  | [] => [[]]
  | x :: rest =>
    if x = c then [] :: splitOnChar c rest
    else
      match splitOnChar c rest with
      | [] => [[x]]
      | y :: ys => (x :: y) :: ys

/-- An XML element as seen through `defusedxml.ElementTree`: a tag, the
leading text node, and the child elements in document order. -/
inductive Xml where
  | mk (tag : String) (text : Option String) (children : List Xml)

def Xml.tag : Xml → String
  | .mk t _ _ => t

def Xml.text : Xml → Option String
  | .mk _ tx _ => tx

def Xml.children : Xml → List Xml
  | .mk _ _ ch => ch

mutual

/-- `element.iter(tag)`: every element of the subtree (the element itself
included) whose tag matches, in document order. -/
def Xml.iterTag (x : Xml) (tag : String) : List Xml :=
  match x with
  | .mk t tx ch => (if t = tag then [Xml.mk t tx ch] else []) ++ Xml.iterTagL ch tag

def Xml.iterTagL (xs : List Xml) (tag : String) : List Xml :=
  match xs with
  | [] => []
  | x :: rest => Xml.iterTag x tag ++ Xml.iterTagL rest tag

end

def Xml.childrenWithTag (x : Xml) (tag : String) : List Xml :=
  x.children.filter (fun c => c.tag = tag)

/-- `element.find(tag)` for a plain tag: the first matching child. -/
def Xml.find1 (x : Xml) (tag : String) : Option Xml :=
  (x.childrenWithTag tag).head?

/-- `element.findall("a/b")`: the matching grandchildren, under every
child matching the first step, in document order. -/
def Xml.findallPath (x : Xml) (a b : String) : List Xml :=
  ((x.childrenWithTag a).map (fun c => c.childrenWithTag b)).flatten

/-- `element.find("a/b")`: the first result of `findall("a/b")`. -/
def Xml.findPath (x : Xml) (a b : String) : Option Xml :=
  (x.findallPath a b).head?

/-- `.text` attribute access on the result of a `find`: when `find`
returned `None`, `None.text` raises `AttributeError`. -/
def findText : Option Xml → Except PyErr (Option String)
  | none => .error .attributeError
  | some e => .ok e.text

/-- A response body as consumed by `element_tree.fromstring`: either
malformed (`fromstring` raises `ParseError`) or an XML tree. -/
inductive RawBody where
  | malformed
  | xml (root : Xml)

def fromstring : RawBody → Except PyErr Xml
  | .malformed => .error .parseError
  | .xml root => .ok root

/-- `data.py DownstreamChannel` (the snr field keeps the validated float
literal, see `pyFloat`). -/
structure DownstreamChannel where
  frequency : Int
  powerLevel : Int
  modulation : Option String
  id : Option String
  snr : String
  preRs : Int
  postRs : Int
  qamLocked : Bool
  fecLocked : Bool
  mpegLocked : Bool
deriving DecidableEq, Repr

/-- `data.py ServiceFlow`. -/
structure ServiceFlow where
  id : Int
  pMaxTrafficRate : Int
  pMaxTrafficBurst : Int
  pMinReservedRate : Int
  pMaxConcatBurst : Int
  pSchedulingType : Int
deriving DecidableEq, Repr

/-- `data.py CmStatus`; texts are kept as the optional strings
`ElementTree` yields. -/
structure CmStatus where
  provisioningStatus : Option String
  cmComment : Option String
  cmDocsisMode : Option String
  cmNetworkAccess : Option String
  numberOfCpes : Int
  firmwareFilename : Option String
  dMaxCpes : Int
  bpiEnable : Int
deriving DecidableEq, Repr

/-- `data.py Ipv6FilterInstance`.  In the source the `srcAddr` and
`dstAddr` attributes are each declared twice; under `attrs` the later
declaration of a name survives, so the surviving `srcAddr` is a plain
(optional) string and the surviving `dstAddr` carries the
`ipaddress.ip_address` converter, and the field order (by declaration
counter of the surviving attributes) matches the positional call in
`async_get_ipv6_filtering`. -/
structure Ipv6FilterInstance where
  idd : Int
  srcAddr : Option String
  srcPfx : Int
  dstAddr : String
  dstPfx : Int
  srcPortStart : Int
  srcPortEnd : Int
  dstPortStart : Int
  dstPortEnd : Int
  protocol : Int
  allow : Int
  enabled : Int
deriving DecidableEq, Repr

/-- `data.py FiltersTimeMode`. -/
structure FiltersTimeMode where
  TMode : Int
  XmlGeneralTime : Option String
  XmlDailyTime : Option String
deriving DecidableEq, Repr

/-- `data.py FilterState`. -/
structure FilterState where
  idd : Int
  enabled : Int
deriving DecidableEq, Repr

/-- `data.py FilterStatesList`. -/
structure FilterStatesList where
  entries : List FilterState
deriving DecidableEq, Repr

def ipLike (s : String) : Bool := s.data.any (fun c => c = '.' || c = ':')

/-- Embedding of `ipaddress.ip_address` (stdlib, external to this
repository) applied to an element text: on `None` it raises `ValueError`,
on a string it returns the parsed address or raises `ValueError`.  Which
strings parse is abstracted by `ipLike`, and the accepted address is kept
as its literal; no claim depends on the exact address grammar. -/
def convert_ip : Option String → Except PyErr String
  | none => .error .valueError
  | some s => if ipLike s then .ok s else .error .valueError

/-! ## parsers.py -/

/-- One item of the comprehension in `_parse_general_time`: the part is
unpacked as `h, m = t.split(":")` (a `ValueError` unless there are exactly
two pieces), then `str(int(h) * 60 + int(m))`. -/
def generalTimePart (p : List Char) : Except PyErr String :=
  match splitOnChar ':' p with
  | [h, m] => do
    let hv ← pyIntStr (String.mk h)
    let mv ← pyIntStr (String.mk m)
    .ok (toString (hv * 60 + mv))
  | _ => .error .valueError

def generalTimeParts : List (List Char) → Except PyErr (List String)
  | [] => .ok []
  | p :: rest => do
    let s ← generalTimePart p
    let l ← generalTimeParts rest
    .ok (s :: l)

/-- `parsers.py _parse_general_time`. -/
def parse_general_time (root : Xml) : Except PyErr (Option String) :=
  match root.findPath "GeneralTime" "time" with
  | none => .ok none
  | some el =>
    match el.text with
    | none => .error .attributeError
    | some t => do
      let parts ← generalTimeParts (splitOnChar '-' t.data)
      .ok (some (String.intercalate "," parts))

/-- Python `l[i]` for an `int` index: negative indices count from the end,
out-of-range raises `IndexError`. -/
def pyGetItem (l : List α) (i : Int) : Except PyErr α :=
  let j : Int := if i < 0 then (l.length : Int) + i else i
  if j < 0 then .error .indexError
  else
    match l[j.toNat]? with
    | some a => .ok a
    | none => .error .indexError

def pySetItem (l : List α) (i : Int) (a : α) : Except PyErr (List α) :=
  let j : Int := if i < 0 then (l.length : Int) + i else i
  if j < 0 ∨ (l.length : Int) ≤ j then .error .indexError
  else .ok (l.set j.toNat a)

/-- A slice bound resolved against a list length, as Python
`slice.indices` does: negative bounds count from the end, everything is
clamped into `[0, len]`. -/
def pyClampIndex (len : Nat) (i : Int) : Nat :=
  if i < 0 then (if (len : Int) + i < 0 then 0 else ((len : Int) + i).toNat)
  else min i.toNat len

/-- Python slice assignment `l[s:e] = v` (step 1): the kept prefix ends at
the resolved start, the kept suffix starts at the resolved end (never
before the start), and `v` goes in between, whatever its length. -/
def sliceAssign (l : List α) (s e : Int) (v : List α) : List α :=
  let s2 := pyClampIndex l.length s
  let e2 := max s2 (pyClampIndex l.length e)
  l.take s2 ++ v ++ l.drop e2

/-- `daydec = (daydec << 1) | bit`, the fold step of `_parse_daily_time`. -/
def bitStep (a b : Nat) : Nat := (a <<< 1) ||| b

/-- The decimal value accumulated over one day row, most significant bit
first. -/
def dayDec (row : List Nat) : Nat := row.foldl bitStep 0

/-- One iteration of the `time_instance` loop of `_parse_daily_time`. -/
def dailyStep (mask : List (List Nat)) (inst : Xml) : Except PyErr (List (List Nat)) := do
  let dayInt ← pyInt (← findText (inst.find1 "daily"))
  let day := dayInt - 1
  match ← findText (inst.find1 "time") with
  | none => .error .attributeError
  | some t =>
    match splitOnChar '-' t.data with
    | [sPart, ePart] => do
      let sv ← pyIntStr (String.mk sPart)
      let ev0 ← pyIntStr (String.mk ePart)
      let ev := ev0 + 1
      let row ← pyGetItem mask day
      let row2 := sliceAssign row sv ev (List.replicate (ev - sv).toNat 1)
      pySetItem mask day row2
    | _ => .error .valueError

def dailyLoop : List Xml → List (List Nat) → Except PyErr (List (List Nat))
  | [], mask => .ok mask
  | inst :: rest, mask => do
    dailyLoop rest (← dailyStep mask inst)

/-- `parsers.py _parse_daily_time`.  The trailing `len(output)` guard of
the source is kept as written; since `output` always has seven entries it
never selects the `None` branch. -/
def parse_daily_time (root : Xml) : Except PyErr (Option String) := do
  let mask ← dailyLoop (root.findallPath "DailyTime" "time_instance")
    (List.replicate 7 (List.replicate 24 0))
  let output := mask.map (fun daybin => toString (dayDec daybin))
  if output.length ≠ 0 then .ok (some (String.intercalate "," output))
  else .ok none

/-! ## data.py: the Device lease-time converter -/

/-- A one-or-two digit `strptime` field (the two-digit form is preferred,
as in the generated regular expression), accepted when its value is at
most `mx`. -/
def parseField2 (mx : Nat) : List Char → Option (Nat × List Char)
  | c1 :: c2 :: rest =>
    if c1.isDigit && c2.isDigit && decide (digitVal c1 * 10 + digitVal c2 ≤ mx) then
      some (digitVal c1 * 10 + digitVal c2, rest)
    else if c1.isDigit && decide (digitVal c1 ≤ mx) then
      some (digitVal c1, c2 :: rest)
    else none
  | [c1] => if c1.isDigit && decide (digitVal c1 ≤ mx) then some (digitVal c1, []) else none
  | [] => none

def expectChar (c : Char) : List Char → Option (List Char)
  | x :: rest => if x = c then some rest else none
  | [] => none

/-- The matcher for the format string `00:%H:%M:%S`: the literal `00:`,
then hours (at most 23), minutes (at most 59) and seconds (at most 61,
as `strptime` allows leap seconds), each colon-separated, consuming the
whole string. -/
def strptimeLeaseAux (l : List Char) : Option (Nat × Nat × Nat) := do
  let r1 ← expectChar '0' l
  let r2 ← expectChar '0' r1
  let r3 ← expectChar ':' r2
  let (h, r4) ← parseField2 23 r3
  let r5 ← expectChar ':' r4
  let (m, r6) ← parseField2 59 r5
  let r7 ← expectChar ':' r6
  let (sec, r8) ← parseField2 61 r7
  if r8 = [] then some (h, m, sec) else none

/-- `data.py Device.lease_time` converter:
`datetime.strptime(lease_time, "00:%H:%M:%S")`, returning the hour,
minute and second of the resulting datetime.  `strptime(None, ...)`
raises `TypeError`, a non-matching string raises `ValueError`. -/
def lease_time_conv : Option String → Except PyErr (Nat × Nat × Nat)
  | none => .error .typeError
  | some s =>
    match strptimeLeaseAux s.data with
    | some v => .ok v
    | none => .error .valueError

/-! ## The client: session manager and command dispatcher -/

def CMD_DOWNSTREAM : Int := 10
def CMD_LOGIN : Int := 15
def CMD_GET_IPV6_FILTER_RULE : Int := 111
def CMD_SET_IPV6_FILTER_RULE : Int := 112
def CMD_CMSTATUS : Int := 144

/-- An HTTP response: status code, the `sessionToken` cookie when the
response carries one, and the body. -/
structure HttpResponse where
  status : Int
  sessionToken : Option String
  body : RawBody

/-- The outcome of one HTTP request: a response, or a transport-level
failure (`asyncio.TimeoutError` / `aiohttp.ClientError`). -/
inductive Transport where
  | err
  | ok (r : HttpResponse)

/-- One HTTP request issued by the client, as recorded in traces. -/
inductive Call where
  | loginPage
  | loginSetter
  | getter (fn : Int)
  | setter (fn : Int) (params : List (String × String))
deriving DecidableEq, Repr

/-- The mutable fields of the `ConnectBox` instance that the embedded
operations touch. -/
structure State where
  token : Option String
  ds_channels : List DownstreamChannel
  ipv6_filters : List Ipv6FilterInstance
  ipv6_filters_time : Option FiltersTimeMode
  cmstatus : Option CmStatus
  downstream_service_flows : List ServiceFlow
  upstream_service_flows : List ServiceFlow
deriving DecidableEq, Repr

/-- `__init__.py _async_ws_get_function`: on a transport failure the token
is cleared and `ConnectBoxConnectionError` raised; on a non-200 status the
token is cleared and `ConnectBoxError` raised; otherwise the token is
replaced by the response's `sessionToken` cookie (a missing cookie is an
uncaught `KeyError`) and the body returned. -/
def async_ws_get_function (fn : Int) (tr : Transport) (st : State) :
    State × List Call × Except PyErr RawBody :=
  match tr with
  | .err => ({ st with token := none }, [.getter fn], .error .connectionError)
  | .ok r =>
    if r.status ≠ 200 then
      ({ st with token := none }, [.getter fn], .error .connectBoxError)
    else
      match r.sessionToken with
      | none => (st, [.getter fn], .error .keyError)
      | some c => ({ st with token := some c }, [.getter fn], .ok r.body)

/-- `__init__.py _async_ws_set_function`: same contract as the getter,
returning `True` on success. -/
def async_ws_set_function (fn : Int) (params : List (String × String))
    (tr : Transport) (st : State) :
    State × List Call × Except PyErr Bool :=
  match tr with
  | .err => ({ st with token := none }, [.setter fn params], .error .connectionError)
  | .ok r =>
    if r.status ≠ 200 then
      ({ st with token := none }, [.setter fn params], .error .connectBoxError)
    else
      match r.sessionToken with
      | none => (st, [.setter fn params], .error .keyError)
      | some c => ({ st with token := some c }, [.setter fn params], .ok true)

/-- `__init__.py _async_initialize_valid_token` (phase 1 of login): GET the
login page; a transport failure raises `ConnectBoxConnectionError`
leaving the token as it was; otherwise the token is replaced by the
response's cookie (a missing cookie is an uncaught `KeyError`).  The
response status is never checked. -/
def async_initialize_valid_token (tr : Transport) (st : State) :
    State × List Call × Except PyErr Unit :=
  match tr with
  | .err => (st, [.loginPage], .error .connectionError)
  | .ok r =>
    match r.sessionToken with
    | none => (st, [.loginPage], .error .keyError)
    | some c => ({ st with token := some c }, [.loginPage], .ok ())

/-- `__init__.py _async_do_login_with_password` (phase 2 of login): POST
the credentials; a transport failure raises `ConnectBoxConnectionError`
leaving the token as it was; a non-200 status clears the token and raises
`ConnectBoxLoginError`; on success the token is replaced by the
response's cookie. -/
def async_do_login_with_password (tr : Transport) (st : State) :
    State × List Call × Except PyErr Unit :=
  match tr with
  | .err => (st, [.loginSetter], .error .connectionError)
  | .ok r =>
    if r.status ≠ 200 then
      ({ st with token := none }, [.loginSetter], .error .loginError)
    else
      match r.sessionToken with
      | none => (st, [.loginSetter], .error .keyError)
      | some c => ({ st with token := some c }, [.loginSetter], .ok ())

/-- `__init__.py async_initialize_token`: phase 1 then phase 2. -/
def async_initialize_token (tr1 tr2 : Transport) (st : State) :
    State × List Call × Except PyErr Unit :=
  match async_initialize_valid_token tr1 st with
  | (st1, c1, .error e) => (st1, c1, .error e)
  | (st1, c1, .ok _) =>
    match async_do_login_with_password tr2 st1 with
    | (st2, c2, res) => (st2, c1 ++ c2, res)

/-- The prologue shared by the operations: `if self.token is None: await
self.async_initialize_token()`. -/
def ensureToken (tr1 tr2 : Transport) (st : State) :
    State × List Call × Except PyErr Unit :=
  match st.token with
  | some _ => (st, [], .ok ())
  | none => async_initialize_token tr1 tr2 st

/-! ## Downstream channels -/

/-- One `<downstream>` element, constructor-argument coercions in source
order (only `ParseError` and `TypeError` are later caught by the caller:
a missing tag is an `AttributeError`, a bad numeric literal a
`ValueError`). -/
def decodeDownstreamChannel (el : Xml) : Except PyErr DownstreamChannel := do
  let freq ← pyInt (← findText (el.find1 "freq"))
  let powv ← pyInt (← findText (el.find1 "pow"))
  let modv ← findText (el.find1 "mod")
  let chid ← findText (el.find1 "chid")
  let rxmer ← pyFloat (← findText (el.find1 "RxMER"))
  let preRs ← pyInt (← findText (el.find1 "PreRs"))
  let postRs ← pyInt (← findText (el.find1 "PostRs"))
  let qam ← findText (el.find1 "IsQamLocked")
  let fec ← findText (el.find1 "IsFECLocked")
  let mpeg ← findText (el.find1 "IsMpegLocked")
  .ok { frequency := freq, powerLevel := powv, modulation := modv, id := chid,
        snr := rxmer, preRs := preRs, postRs := postRs,
        qamLocked := qam == some "1", fecLocked := fec == some "1",
        mpegLocked := mpeg == some "1" }

/-- The `for downstream in xml_root.iter("downstream")` loop: channels are
appended one by one, so an error mid-way leaves the already-appended
prefix in place. -/
def downstreamFold (els : List Xml) (acc : List DownstreamChannel) :
    List DownstreamChannel × Except PyErr Unit :=
  match els with
  | [] => (acc, .ok ())
  | el :: rest =>
    match decodeDownstreamChannel el with
    | .error e => (acc, .error e)
    | .ok ch => downstreamFold rest (acc ++ [ch])

/-- `__init__.py async_get_downstream`. -/
def async_get_downstream (tr1 tr2 trGet : Transport) (st : State) :
    State × List Call × Except PyErr Unit :=
  match ensureToken tr1 tr2 st with
  | (st1, cs, .error e) => (st1, cs, .error e)
  | (st1, cs, .ok _) =>
    let st2 := { st1 with ds_channels := [] }
    match async_ws_get_function CMD_DOWNSTREAM trGet st2 with
    | (st3, cs2, .error e) => (st3, cs ++ cs2, .error e)
    | (st3, cs2, .ok raw) =>
      match fromstring raw with
      | .error _ => ({ st3 with token := none }, cs ++ cs2, .error .noDataAvailable)
      | .ok root =>
        match downstreamFold (root.iterTag "downstream") [] with
        | (chs, res) =>
          let st4 := { st3 with ds_channels := chs }
          match res with
          | .ok _ => (st4, cs ++ cs2, .ok ())
          | .error e =>
            if e = .parseError ∨ e = .typeError then
              ({ st4 with token := none }, cs ++ cs2, .error .noDataAvailable)
            else (st4, cs ++ cs2, .error e)

/-! ## IPv6 filters -/

/-- One `<instance>` element of the filter table.  The positional
arguments are coerced in call order; the `attrs` converter of the
surviving `dstAddr` attribute (`ipaddress.ip_address`) runs afterwards,
during construction. -/
def decodeIpv6FilterInstance (el : Xml) : Except PyErr Ipv6FilterInstance := do
  let idd ← pyInt (← findText (el.find1 "idd"))
  let srcA ← findText (el.find1 "src_addr")
  let srcP ← pyInt (← findText (el.find1 "src_prefix"))
  let dstAtext ← findText (el.find1 "dst_addr")
  let dstP ← pyInt (← findText (el.find1 "dst_prefix"))
  let srcSp ← pyInt (← findText (el.find1 "src_sport"))
  let srcEp ← pyInt (← findText (el.find1 "src_eport"))
  let dstSp ← pyInt (← findText (el.find1 "dst_sport"))
  let dstEp ← pyInt (← findText (el.find1 "dst_eport"))
  let proto ← pyInt (← findText (el.find1 "protocol"))
  let allw ← pyInt (← findText (el.find1 "allow"))
  let enab ← pyInt (← findText (el.find1 "enabled"))
  let dstA ← convert_ip dstAtext
  .ok { idd := idd, srcAddr := srcA, srcPfx := srcP, dstAddr := dstA,
        dstPfx := dstP, srcPortStart := srcSp, srcPortEnd := srcEp,
        dstPortStart := dstSp, dstPortEnd := dstEp, protocol := proto,
        allow := allw, enabled := enab }

/-- The `for instance in xml_root.iter("instance")` loop, appending one
instance at a time. -/
def ipv6Fold (els : List Xml) (acc : List Ipv6FilterInstance) :
    List Ipv6FilterInstance × Except PyErr Unit :=
  match els with
  | [] => (acc, .ok ())
  | el :: rest =>
    match decodeIpv6FilterInstance el with
    | .error e => (acc, .error e)
    | .ok f => ipv6Fold rest (acc ++ [f])

/-- The `FiltersTimeMode(...)` construction at the end of the decode:
`int` of the `time_mode` text, then the two schedule parsers. -/
def decodeFiltersTime (root : Xml) : Except PyErr FiltersTimeMode := do
  let tm ← pyInt (← findText (root.find1 "time_mode"))
  let gt ← parse_general_time root
  let dt ← parse_daily_time root
  .ok { TMode := tm, XmlGeneralTime := gt, XmlDailyTime := dt }

/-- `__init__.py async_get_ipv6_filtering`. -/
def async_get_ipv6_filtering (tr1 tr2 trGet : Transport) (st : State) :
    State × List Call × Except PyErr Unit :=
  match ensureToken tr1 tr2 st with
  | (st1, cs, .error e) => (st1, cs, .error e)
  | (st1, cs, .ok _) =>
    let st2 := { st1 with ipv6_filters := [], ipv6_filters_time := none }
    match async_ws_get_function CMD_GET_IPV6_FILTER_RULE trGet st2 with
    | (st3, cs2, .error e) => (st3, cs ++ cs2, .error e)
    | (st3, cs2, .ok raw) =>
      match fromstring raw with
      | .error _ => ({ st3 with token := none }, cs ++ cs2, .error .noDataAvailable)
      | .ok root =>
        match ipv6Fold (root.iterTag "instance") [] with
        | (fs, res) =>
          let st4 := { st3 with ipv6_filters := fs }
          match res with
          | .error e =>
            if e = .parseError ∨ e = .typeError then
              ({ st4 with token := none }, cs ++ cs2, .error .noDataAvailable)
            else (st4, cs ++ cs2, .error e)
          | .ok _ =>
            match decodeFiltersTime root with
            | .ok ftm =>
              ({ st4 with ipv6_filters_time := some ftm }, cs ++ cs2, .ok ())
            | .error e =>
              if e = .parseError ∨ e = .typeError then
                ({ st4 with token := none }, cs ++ cs2, .error .noDataAvailable)
              else (st4, cs ++ cs2, .error e)

/-- `__init__.py _async_get_ipv6_filter_states`. -/
def async_get_ipv6_filter_states (tr1 tr2 trGet : Transport) (st : State) :
    State × List Call × Except PyErr FilterStatesList :=
  match async_get_ipv6_filtering tr1 tr2 trGet st with
  | (st1, cs, .error e) => (st1, cs, .error e)
  | (st1, cs, .ok _) =>
    (st1, cs, .ok ⟨st1.ipv6_filters.map (fun f => ⟨f.idd, f.enabled⟩)⟩)

/-- Python `str(x)` of a value that may be `None` (an f-string renders
`None` as the text `None`). -/
def pyStrOpt : Option String → String
  | none => "None"
  | some s => s

/-- `__init__.py _async_update_ipv6_filter_states`: the order-sensitive
parameter list is rebuilt as in the source (an `OrderedDict`), with every
value rendered as its f-string text. -/
def async_update_ipv6_filter_states (fsl : FilterStatesList)
    (tr1 tr2 trSet : Transport) (st : State) :
    State × List Call × Except PyErr Bool :=
  match ensureToken tr1 tr2 st with
  | (st1, cs, .error e) => (st1, cs, .error e)
  | (st1, cs, .ok _) =>
    let valEnabled := String.intercalate "*" (fsl.entries.map (fun fs => toString fs.enabled))
    let valDel := String.intercalate "*" (fsl.entries.map (fun _ => "0"))
    let valIdd := String.intercalate "*" (fsl.entries.map (fun fs => toString fs.idd))
    match st1.ipv6_filters_time with
    | none => (st1, cs, .error .attributeError)
    | some ftm =>
      let trule : String :=
        if ftm.TMode = 1 then pyStrOpt ftm.XmlGeneralTime
        else if ftm.TMode = 2 then pyStrOpt ftm.XmlDailyTime
        else "0"
      let params : List (String × String) :=
        [("act", "1"), ("dir", "0"), ("enabled", valEnabled),
         ("allow_traffic", ""), ("protocol", ""), ("src_addr", ""),
         ("src_prefix", ""), ("dst_addr", ""), ("dst_prefix", ""),
         ("ssport", ""), ("seport", ""), ("dsport", ""), ("deport", ""),
         ("del", valDel), ("idd", valIdd), ("sIpRange", ""),
         ("dsIpRange", ""), ("PortRange", ""), ("TMode", toString ftm.TMode),
         ("TRule", trule)]
      match async_ws_set_function CMD_SET_IPV6_FILTER_RULE params trSet st1 with
      | (st2, cs2, res) => (st2, cs ++ cs2, res)

/-- The `for st in states.entries` loop of `async_toggle_ipv6_filter`:
find the first entry with the requested id, flip its enabled flag in
place (`int(not bool(enabled))`), report the new boolean. -/
def toggleEntries (idd : Int) : List FilterState → Option (List FilterState × Bool)
  | [] => none
  | s :: rest =>
    if s.idd = idd then
      let newEnabled : Int := if s.enabled = 0 then 1 else 0
      some (⟨s.idd, newEnabled⟩ :: rest, newEnabled ≠ 0)
    else
      match toggleEntries idd rest with
      | none => none
      | some (l, b) => some (s :: l, b)

/-- `__init__.py async_toggle_ipv6_filter`. -/
def async_toggle_ipv6_filter (idd : Int)
    (tr1 tr2 trGet tr3 tr4 trSet : Transport) (st : State) :
    State × List Call × Except PyErr (Option Bool) :=
  match async_get_ipv6_filter_states tr1 tr2 trGet st with
  | (st1, cs, .error e) => (st1, cs, .error e)
  | (st1, cs, .ok states) =>
    match toggleEntries idd states.entries with
    | none => (st1, cs, .ok none)
    | some (entries2, newVal) =>
      match async_update_ipv6_filter_states ⟨entries2⟩ tr3 tr4 trSet st1 with
      | (st2, cs2, .error e) => (st2, cs ++ cs2, .error e)
      | (st2, cs2, .ok _) => (st2, cs ++ cs2, .ok (some newVal))

/-! ## CM status and service flows -/

/-- The `CmStatus(...)` construction of
`async_get_cmstatus_and_service_flows`, keyword arguments coerced in
source order. -/
def decodeCmStatusFields (root : Xml) : Except PyErr CmStatus := do
  let prov ← findText (root.find1 "provisioning_st")
  let comm ← findText (root.find1 "cm_comment")
  let docs ← findText (root.find1 "cm_docsis_mode")
  let net ← findText (root.find1 "cm_network_access")
  let ncpes ← pyInt (← findText (root.find1 "NumberOfCpes"))
  let fname ← findText (root.find1 "FileName")
  let dmax ← pyInt (← findText (root.find1 "dMaxCpes"))
  let bpi ← pyInt (← findText (root.find1 "bpiEnable"))
  .ok { provisioningStatus := prov, cmComment := comm, cmDocsisMode := docs,
        cmNetworkAccess := net, numberOfCpes := ncpes,
        firmwareFilename := fname, dMaxCpes := dmax, bpiEnable := bpi }

/-- The `ServiceFlow(...)` construction for one `<serviceflow>` element. -/
def decodeServiceFlow (el : Xml) : Except PyErr ServiceFlow := do
  let sfid ← pyInt (← findText (el.find1 "Sfid"))
  let mtr ← pyInt (← findText (el.find1 "pMaxTrafficRate"))
  let mtb ← pyInt (← findText (el.find1 "pMaxTrafficBurst"))
  let mrr ← pyInt (← findText (el.find1 "pMinReservedRate"))
  let mcb ← pyInt (← findText (el.find1 "pMaxConcatBurst"))
  let sched ← pyInt (← findText (el.find1 "pSchedulingType"))
  .ok { id := sfid, pMaxTrafficRate := mtr, pMaxTrafficBurst := mtb,
        pMinReservedRate := mrr, pMaxConcatBurst := mcb,
        pSchedulingType := sched }

/-- `int(elmt_service_flow.find("direction").text)`. -/
def serviceFlowDirection (el : Xml) : Except PyErr Int := do
  pyInt (← findText (el.find1 "direction"))

/-- The `for elmt_service_flow in xml_root.iter("serviceflow")` loop:
each flow is appended to the downstream or upstream list as it is
decoded; a direction outside one and two raises
`element_tree.ParseError` on the spot, leaving the lists as accumulated
so far. -/
def serviceFlowsFold (els : List Xml) (ds us : List ServiceFlow) :
    List ServiceFlow × List ServiceFlow × Except PyErr Unit :=
  match els with
  | [] => (ds, us, .ok ())
  | el :: rest =>
    match decodeServiceFlow el with
    | .error e => (ds, us, .error e)
    | .ok sf =>
      match serviceFlowDirection el with
      | .error e => (ds, us, .error e)
      | .ok d =>
        if d = 1 then serviceFlowsFold rest (ds ++ [sf]) us
        else if d = 2 then serviceFlowsFold rest ds (us ++ [sf])
        else (ds, us, .error .parseError)

/-- `__init__.py async_get_cmstatus_and_service_flows`. -/
def async_get_cmstatus_and_service_flows (tr1 tr2 trGet : Transport) (st : State) :
    State × List Call × Except PyErr Unit :=
  match ensureToken tr1 tr2 st with
  | (st1, cs, .error e) => (st1, cs, .error e)
  | (st1, cs, .ok _) =>
    let st2 := { st1 with cmstatus := none, downstream_service_flows := [],
                          upstream_service_flows := [] }
    match async_ws_get_function CMD_CMSTATUS trGet st2 with
    | (st3, cs2, .error e) => (st3, cs ++ cs2, .error e)
    | (st3, cs2, .ok raw) =>
      match fromstring raw with
      | .error _ => ({ st3 with token := none }, cs ++ cs2, .error .noDataAvailable)
      | .ok root =>
        match decodeCmStatusFields root with
        | .error e =>
          if e = .parseError ∨ e = .typeError then
            ({ st3 with token := none }, cs ++ cs2, .error .noDataAvailable)
          else (st3, cs ++ cs2, .error e)
        | .ok cstat =>
          let st4 := { st3 with cmstatus := some cstat }
          match serviceFlowsFold (root.iterTag "serviceflow") [] [] with
          | (ds, us, res) =>
            let st5 := { st4 with downstream_service_flows := ds,
                                  upstream_service_flows := us }
            match res with
            | .ok _ => (st5, cs ++ cs2, .ok ())
            | .error e =>
              if e = .parseError ∨ e = .typeError then
                ({ st5 with token := none }, cs ++ cs2, .error .noDataAvailable)
              else (st5, cs ++ cs2, .error e)

/-! ## Sequences of getter/setter operations (token rotation) -/

inductive OpKind where
  | get
  | set

/-- One getter or setter operation together with the response the device
returns to it. -/
structure Op where
  kind : OpKind
  fn : Int
  params : List (String × String)
  resp : HttpResponse

/-- The state update of one operation (the request is answered by
`o.resp`). -/
def opStep (st : State) (o : Op) : State :=
  match o.kind with
  | .get => (async_ws_get_function o.fn (.ok o.resp) st).1
  | .set => (async_ws_set_function o.fn o.params (.ok o.resp) st).1

/-- Running a sequence of getter/setter operations. -/
def runOps (st : State) (ops : List Op) : State := ops.foldl opStep st

/-! ## Helper lemmas -/

theorem dch_isDigit : ∀ k < 10, (dch k).isDigit = true := by decide

theorem dch_val : ∀ k < 10, digitVal (dch k) = k := by decide

theorem dch_ne_dash : ∀ k < 10, dch k ≠ '-' := by decide

theorem dch_eq_zero_iff : ∀ k < 10, (dch k = '0' ↔ k = 0) := by decide

theorem digitsVal_pad2 (n : Nat) (h : n < 100) : digitsVal (pad2 n) = some n := by
  have h1 : n / 10 < 10 := by omega
  have h2 : n % 10 < 10 := by omega
  show digitsVal [dch (n / 10), dch (n % 10)] = some n
  simp [digitsVal, digitsValAux, dch_isDigit _ h1, dch_isDigit _ h2,
    dch_val _ h1, dch_val _ h2]
  omega

theorem pyIntChars_pad2 (n : Nat) (h : n < 100) :
    pyIntChars (pad2 n) = .ok (n : Int) := by
  have h1 : n / 10 < 10 := by omega
  show pyIntChars (dch (n / 10) :: [dch (n % 10)]) = .ok (n : Int)
  rw [pyIntChars, if_neg (dch_ne_dash _ h1)]
  rw [show (dch (n / 10) :: [dch (n % 10)]) = pad2 n from rfl, digitsVal_pad2 n h]

theorem pyIntStr_repr24 : ∀ n < 24, pyIntStr (Nat.repr n) = .ok (n : Int) := by decide

theorem dash_not_mem_repr24 : ∀ n < 24, ¬ ('-' ∈ (Nat.repr n).data) := by decide

theorem splitOnChar_of_not_mem (c : Char) (l : List Char) (h : c ∉ l) :
    splitOnChar c l = [l] := by
  induction l with
  | nil => rfl
  | cons x rest ih =>
    have hx : ¬ (x = c) := fun he => h (he ▸ List.mem_cons_self x rest)
    have hr : c ∉ rest := fun hm => h (List.mem_cons_of_mem x hm)
    simp only [splitOnChar, if_neg hx, ih hr]

theorem splitOnChar_append (c : Char) (a b : List Char) (h : c ∉ a) :
    splitOnChar c (a ++ c :: b) = a :: splitOnChar c b := by
  induction a with
  | nil => simp [splitOnChar]
  | cons x rest ih =>
    have hx : ¬ (x = c) := fun he => h (he ▸ List.mem_cons_self x rest)
    have hr : c ∉ rest := fun hm => h (List.mem_cons_of_mem x hm)
    simp only [List.cons_append, splitOnChar, if_neg hx]
    have ih2 : splitOnChar c (List.append rest (c :: b)) = rest :: splitOnChar c b := ih hr
    rw [ih2]

theorem not_mem_pad2 (c : Char) (n : Nat) (h : n < 100)
    (hc : ∀ k < 10, dch k ≠ c) : c ∉ pad2 n := by
  have h1 : n / 10 < 10 := by omega
  have h2 : n % 10 < 10 := by omega
  intro hm
  simp only [pad2, List.mem_cons, List.not_mem_nil, or_false] at hm
  rcases hm with hm | hm
  · exact hc (n / 10) h1 hm.symm
  · exact hc (n % 10) h2 hm.symm

theorem parseField2_pad2 (mx n : Nat) (rest : List Char) (h : n < 100)
    (hmx : n ≤ mx) : parseField2 mx (pad2 n ++ rest) = some (n, rest) := by
  have h1 : n / 10 < 10 := by omega
  have h2 : n % 10 < 10 := by omega
  have hv : digitVal (dch (n / 10)) * 10 + digitVal (dch (n % 10)) = n := by
    rw [dch_val _ h1, dch_val _ h2]; omega
  show parseField2 mx (dch (n / 10) :: dch (n % 10) :: rest) = some (n, rest)
  rw [parseField2, dch_isDigit _ h1, dch_isDigit _ h2, hv]
  simp [hmx]

theorem bitStep_zero (a : Nat) : bitStep a 0 = 2 * a := by
  rw [bitStep, Nat.or_zero, Nat.shiftLeft_eq]
  ring

theorem bitStep_one (a : Nat) : bitStep a 1 = 2 * a + 1 := by
  have h1 : a <<< 1 = 2 * a := by rw [Nat.shiftLeft_eq]; ring
  rw [bitStep, h1]
  have h2 : 2 * a = Nat.bit false a := by simp [Nat.bit_val]
  have h3 : (1 : Nat) = Nat.bit true 0 := by simp [Nat.bit_val]
  rw [h2, h3, Nat.lor_bit]
  simp [Nat.bit_val]

theorem foldl_bitStep_replicate_zero (n : Nat) (acc : Nat) :
    (List.replicate n 0).foldl bitStep acc = acc * 2 ^ n := by
  induction n generalizing acc with
  | zero => simp
  | succ k ih =>
    rw [List.replicate_succ, List.foldl_cons, bitStep_zero, ih]
    ring

theorem foldl_bitStep_replicate_one (k : Nat) (acc : Nat) :
    (List.replicate k 1).foldl bitStep acc = acc * 2 ^ k + (2 ^ k - 1) := by
  induction k generalizing acc with
  | zero => simp
  | succ j ih =>
    rw [List.replicate_succ, List.foldl_cons, bitStep_one, ih]
    have h1 : (1 : Nat) ≤ 2 ^ j := Nat.one_le_two_pow
    have h3 : (2 * acc + 1) * 2 ^ j = 2 * (acc * 2 ^ j) + 2 ^ j := by ring
    have h4 : acc * 2 ^ (j + 1) = 2 * (acc * 2 ^ j) := by ring
    have h5 : 2 ^ (j + 1) = 2 * 2 ^ j := by ring
    omega

/-- The value of one day row of `_parse_daily_time` after a single range
update: high bits (early hours) first. -/
theorem dayDec_row (s e : Nat) (_hs : s ≤ e) (_he : e ≤ 23) :
    dayDec (List.replicate s 0 ++ List.replicate (e + 1 - s) 1 ++ List.replicate (23 - e) 0)
      = (2 ^ (e + 1 - s) - 1) * 2 ^ (23 - e) := by
  rw [dayDec, List.foldl_append, List.foldl_append]
  rw [foldl_bitStep_replicate_zero, foldl_bitStep_replicate_one,
    foldl_bitStep_replicate_zero]
  simp

theorem dayDec_zero_row : dayDec (List.replicate 24 0) = 0 := by decide

theorem dayMask_testBit (s e h : Nat) (hs : s ≤ e) (he : e ≤ 23) (hh : h < 24) :
    (((2 ^ (e + 1 - s) - 1) * 2 ^ (23 - e)).testBit (23 - h) = true) ↔ (s ≤ h ∧ h ≤ e) := by
  have h1 : (2 ^ (e + 1 - s) - 1) * 2 ^ (23 - e) = (2 ^ (e + 1 - s) - 1) <<< (23 - e) := by
    rw [Nat.shiftLeft_eq]
  rw [h1, Nat.testBit_shiftLeft, Nat.testBit_two_pow_sub_one]
  simp only [Bool.and_eq_true, decide_eq_true_eq]
  omega

theorem pyGetItem_nonneg (l : List α) (i : Nat) (_h : i < l.length) (a : α)
    (ha : l[i]? = some a) : pyGetItem l (i : Int) = .ok a := by
  rw [pyGetItem]
  have h1 : ¬ ((i : Int) < 0) := by omega
  simp only [h1, if_false, Int.toNat_natCast]
  rw [ha]

theorem pySetItem_nonneg (l : List α) (i : Nat) (h : i < l.length) (a : α) :
    pySetItem l (i : Int) a = .ok (l.set i a) := by
  have h1 : ¬ ((i : Int) < 0) := by omega
  simp only [pySetItem, h1, if_false, false_or, Int.toNat_natCast]
  rw [if_neg (by omega : ¬ ((l.length : Int) ≤ (i : Int)))]

theorem sliceAssign_replicate24 (s e : Nat) (hs : s ≤ e) (he : e ≤ 23) :
    sliceAssign (List.replicate 24 (0 : Nat)) (s : Int) ((e : Int) + 1)
        (List.replicate (((e : Int) + 1 - (s : Int)).toNat) 1)
      = List.replicate s 0 ++ List.replicate (e + 1 - s) 1 ++ List.replicate (23 - e) 0 := by
  have hcount : (((e : Int) + 1 - (s : Int)).toNat) = e + 1 - s := by omega
  rw [sliceAssign, pyClampIndex, pyClampIndex, hcount]
  have h1 : ¬ ((s : Int) < 0) := by omega
  have h2 : ¬ ((e : Int) + 1 < 0) := by omega
  have h3 : ((e : Int) + 1).toNat = e + 1 := by omega
  simp only [h1, if_false, h2, Int.toNat_natCast, h3, List.length_replicate]
  have h4 : min s 24 = s := by omega
  have h5 : min (e + 1) 24 = e + 1 := by omega
  rw [h4, h5]
  have h6 : max s (e + 1) = e + 1 := by omega
  rw [h6, List.take_replicate, List.drop_replicate]
  have h7 : min s 24 = s := by omega
  have h8 : 24 - (e + 1) = 23 - e := by omega
  rw [h7, h8]

/-! ## Concrete fixtures -/

/-- A fresh client state, as `ConnectBox.__init__` leaves it. -/
def st0 : State :=
  { token := none, ds_channels := [], ipv6_filters := [], ipv6_filters_time := none,
    cmstatus := none, downstream_service_flows := [], upstream_service_flows := [] }

/-- A client state already holding a session token. -/
def stTok : State := { st0 with token := some "t0" }

/-- A leaf element with only a text node. -/
def el1 (tag v : String) : Xml := .mk tag (some v) []

/-! ## Claim C1 -/

/-- Claim C1, counterexample: with a phase-1 login-page response carrying
cookie `t1` and a phase-2 transport failure, the login handshake raises
`ConnectBoxConnectionError` while the token is left holding `t1` — it is
not set to absent before the error is surfaced, contradicting the claim
that every failure in either phase clears the token. -/
theorem c1_counterexample :
    (async_initialize_token (.ok ⟨200, some "t1", .malformed⟩) .err st0).2.2
        = .error .connectionError ∧
    (async_initialize_token (.ok ⟨200, some "t1", .malformed⟩) .err st0).1.token
        = some "t1" := ⟨rfl, rfl⟩

/-- Claim C1 (amended): only the phase-2 non-success-status failure sets
the token to absent before raising (`ConnectBoxLoginError`); a
transport-level failure in either phase raises
`ConnectBoxConnectionError` with the token left exactly as it was. -/
theorem c1_theorem :
    (∀ (st : State) (r : HttpResponse), r.status ≠ 200 →
      (async_do_login_with_password (.ok r) st).1.token = none ∧
      (async_do_login_with_password (.ok r) st).2.2 = .error .loginError) ∧
    (∀ st : State,
      (async_do_login_with_password .err st).1.token = st.token ∧
      (async_do_login_with_password .err st).2.2 = .error .connectionError) ∧
    (∀ st : State,
      (async_initialize_valid_token .err st).1.token = st.token ∧
      (async_initialize_valid_token .err st).2.2 = .error .connectionError) := by
  refine ⟨fun st r h => ?_, fun st => ⟨rfl, rfl⟩, fun st => ⟨rfl, rfl⟩⟩
  constructor <;> simp [async_do_login_with_password, h]

theorem c1_witness :
    (async_do_login_with_password (.ok ⟨500, some "x", .malformed⟩) st0).1.token = none ∧
    (async_do_login_with_password (.ok ⟨500, some "x", .malformed⟩) st0).2.2
        = .error .loginError :=
  c1_theorem.1 st0 ⟨500, some "x", .malformed⟩ (by decide)

/-! ## Claim C2 -/

/-- Claim C2: on every getter or setter call outside of login, a non-200
HTTP status clears the held token and fails with the generic protocol
error `ConnectBoxError`. -/
theorem c2_theorem :
    ∀ (st : State) (fn : Int) (params : List (String × String)) (r : HttpResponse),
      r.status ≠ 200 →
      ((async_ws_get_function fn (.ok r) st).1.token = none ∧
       (async_ws_get_function fn (.ok r) st).2.2 = .error .connectBoxError) ∧
      ((async_ws_set_function fn params (.ok r) st).1.token = none ∧
       (async_ws_set_function fn params (.ok r) st).2.2 = .error .connectBoxError) := by
  intro st fn params r h
  refine ⟨⟨?_, ?_⟩, ⟨?_, ?_⟩⟩ <;>
    simp [async_ws_get_function, async_ws_set_function, h]

theorem c2_witness :
    (((async_ws_get_function 10 (.ok ⟨302, some "t", .malformed⟩) stTok).1.token = none ∧
      (async_ws_get_function 10 (.ok ⟨302, some "t", .malformed⟩) stTok).2.2
        = .error .connectBoxError) ∧
     ((async_ws_set_function 10 [] (.ok ⟨302, some "t", .malformed⟩) stTok).1.token = none ∧
      (async_ws_set_function 10 [] (.ok ⟨302, some "t", .malformed⟩) stTok).2.2
        = .error .connectBoxError)) :=
  c2_theorem stTok 10 [] ⟨302, some "t", .malformed⟩ (by decide)

/-! ## Claim C3 -/

theorem opStep_token (st : State) (o : Op) (c : String)
    (h200 : o.resp.status = 200) (hc : o.resp.sessionToken = some c) :
    (opStep st o).token = some c := by
  cases o with
  | mk kind fn params resp =>
    cases kind <;>
      simp_all [opStep, async_ws_get_function, async_ws_set_function]

/-- Claim C3: over any nonempty sequence of getter/setter operations in
which every response is a success (status 200 with a `sessionToken`
cookie), the token held afterwards is the cookie of the last response;
applied to every prefix this is the per-operation rotation property. -/
theorem c3_theorem :
    ∀ (ops : List Op) (st : State) (h : ops ≠ []),
      (∀ o ∈ ops, o.resp.status = 200 ∧ ∃ c, o.resp.sessionToken = some c) →
      (runOps st ops).token = (ops.getLast h).resp.sessionToken := by
  intro ops
  induction ops with
  | nil => intro st h _; exact absurd rfl h
  | cons o rest ih =>
    intro st h hall
    cases rest with
    | nil =>
      obtain ⟨h200, c, hc⟩ := hall o (List.mem_cons_self o [])
      have h1 : runOps st [o] = opStep st o := rfl
      show (runOps st [o]).token = o.resp.sessionToken
      rw [h1, opStep_token st o c h200 hc, hc]
    | cons o2 rest2 =>
      have hne : (o2 :: rest2 : List Op) ≠ [] := by simp
      have hstep : runOps st (o :: o2 :: rest2) = runOps (opStep st o) (o2 :: rest2) := rfl
      have hlast : (o :: o2 :: rest2).getLast h = (o2 :: rest2).getLast hne :=
        List.getLast_cons hne
      rw [hstep, hlast]
      exact ih (opStep st o) hne (fun x hx => hall x (List.mem_cons_of_mem o hx))

/-- A concrete two-operation run: a getter answered with cookie `a`, then
a setter answered with cookie `b`. -/
def c3ops : List Op :=
  [⟨.get, 10, [], ⟨200, some "a", .malformed⟩⟩,
   ⟨.set, 112, [("act", "1")], ⟨200, some "b", .malformed⟩⟩]

theorem c3_witness : (runOps st0 c3ops).token = some "b" := by
  have hall : ∀ o ∈ c3ops, o.resp.status = 200 ∧ ∃ c, o.resp.sessionToken = some c := by
    intro o ho
    simp only [c3ops, List.mem_cons, List.not_mem_nil, or_false] at ho
    rcases ho with rfl | rfl
    · exact ⟨rfl, "a", rfl⟩
    · exact ⟨rfl, "b", rfl⟩
  have h := c3_theorem c3ops st0 (by simp [c3ops]) hall
  exact h.trans rfl

/-! ## Claim C4 -/

theorem ensureToken_of_some (tr1 tr2 : Transport) (st : State) (t : String)
    (h : st.token = some t) : ensureToken tr1 tr2 st = (st, [], .ok ()) := by
  rw [ensureToken, h]

theorem ws_get_success (fn : Int) (r : HttpResponse) (st : State) (c : String)
    (h200 : r.status = 200) (hc : r.sessionToken = some c) :
    async_ws_get_function fn (.ok r) st
      = ({ st with token := some c }, [.getter fn], .ok r.body) := by
  simp [async_ws_get_function, h200, hc]

/-- A downstream body whose `freq` text is not a numeric literal. -/
def xmlBadFreq : Xml :=
  .mk "cmstate" none [.mk "downstream" none [el1 "freq" "abc"]]

/-- Claim C4, counterexample: a downstream response whose `freq` text is
the non-numeric literal `abc` makes `int()` raise `ValueError`, which is
not in the caught `(ParseError, TypeError)` tuple: the operation fails
with the uncaught `ValueError`, not `NoDataAvailable`, and the token —
already rotated by the successful HTTP exchange — is left present, not
cleared. -/
theorem c4_counterexample :
    (async_get_downstream .err .err (.ok ⟨200, some "t1", .xml xmlBadFreq⟩) stTok).2.2
        = .error .valueError ∧
    (async_get_downstream .err .err (.ok ⟨200, some "t1", .xml xmlBadFreq⟩) stTok).1.token
        = some "t1" := by decide

/-- Claim C4 (amended), shown on the downstream decoder: only a malformed
body (`ParseError` from `fromstring`) and a `TypeError` raised by a
coercion (`int`/`float` applied to the `None` text of an empty element)
are converted to `NoDataAvailable` with the token cleared first; a
missing tag (`AttributeError`) or a non-numeric literal (`ValueError`)
propagates uncaught with the token left in place. -/
theorem c4_theorem :
    ∀ (st : State) (t0 c : String) (r : HttpResponse),
      st.token = some t0 → r.status = 200 → r.sessionToken = some c →
      ((r.body = .malformed →
        (async_get_downstream .err .err (.ok r) st).2.2 = .error .noDataAvailable ∧
        (async_get_downstream .err .err (.ok r) st).1.token = none) ∧
       (∀ (root : Xml) (chs : List DownstreamChannel),
        r.body = .xml root →
        downstreamFold (root.iterTag "downstream") [] = (chs, .error .typeError) →
        (async_get_downstream .err .err (.ok r) st).2.2 = .error .noDataAvailable ∧
        (async_get_downstream .err .err (.ok r) st).1.token = none)) := by
  intro st t0 c r htok h200 hc
  have he := ensureToken_of_some (Transport.err) (Transport.err) st t0 htok
  have hg := ws_get_success CMD_DOWNSTREAM r { st with ds_channels := [] } c h200 hc
  constructor
  · intro hb
    rw [hb] at hg
    simp [async_get_downstream, he, hg, fromstring]
  · intro root chs hb hfold
    rw [hb] at hg
    simp [async_get_downstream, he, hg, fromstring, hfold]

theorem c4_witness :
    (async_get_downstream .err .err (.ok ⟨200, some "t1", .malformed⟩) stTok).2.2
        = .error .noDataAvailable ∧
    (async_get_downstream .err .err (.ok ⟨200, some "t1", .malformed⟩) stTok).1.token
        = none :=
  (c4_theorem stTok "t0" "t1" ⟨200, some "t1", .malformed⟩ rfl rfl rfl).1 rfl

/-! ## Claim C5 -/

theorem initialize_valid_token_trace (tr : Transport) (st : State) :
    (async_initialize_valid_token tr st).2.1 = [Call.loginPage] := by
  cases tr with
  | err => rfl
  | ok r => cases hr : r.sessionToken <;> simp [async_initialize_valid_token, hr]

theorem do_login_trace (tr : Transport) (st : State) :
    (async_do_login_with_password tr st).2.1 = [Call.loginSetter] := by
  cases tr with
  | err => rfl
  | ok r =>
    by_cases h : r.status = 200
    · cases hr : r.sessionToken <;> simp [async_do_login_with_password, h, hr]
    · simp [async_do_login_with_password, h]

theorem ws_get_trace (fn : Int) (tr : Transport) (st : State) :
    (async_ws_get_function fn tr st).2.1 = [Call.getter fn] := by
  cases tr with
  | err => rfl
  | ok r =>
    by_cases h : r.status = 200
    · cases hr : r.sessionToken <;> simp [async_ws_get_function, h, hr]
    · simp [async_ws_get_function, h]

theorem initialize_token_trace (tr1 tr2 : Transport) (st : State) :
    ∀ cl ∈ (async_initialize_token tr1 tr2 st).2.1,
      cl = Call.loginPage ∨ cl = Call.loginSetter := by
  intro cl hcl
  unfold async_initialize_token at hcl
  rcases h1 : async_initialize_valid_token tr1 st with ⟨s1, c1, res⟩
  rw [h1] at hcl
  have hc1 : c1 = [Call.loginPage] := by
    have h := initialize_valid_token_trace tr1 st
    rw [h1] at h
    exact h
  subst hc1
  cases res with
  | error e =>
    simp at hcl
    exact Or.inl hcl
  | ok u =>
    dsimp only at hcl
    rcases h2 : async_do_login_with_password tr2 s1 with ⟨s2, c2, res2⟩
    rw [h2] at hcl
    have hc2 : c2 = [Call.loginSetter] := by
      have h := do_login_trace tr2 s1
      rw [h2] at h
      exact h
    subst hc2
    simp at hcl
    exact hcl

theorem ensureToken_trace (tr1 tr2 : Transport) (st : State) :
    ∀ cl ∈ (ensureToken tr1 tr2 st).2.1,
      cl = Call.loginPage ∨ cl = Call.loginSetter := by
  intro cl hcl
  cases htok : st.token with
  | some t => simp [ensureToken, htok] at hcl
  | none =>
    rw [show ensureToken tr1 tr2 st = async_initialize_token tr1 tr2 st from by
      rw [ensureToken, htok]] at hcl
    exact initialize_token_trace tr1 tr2 st cl hcl

theorem get_filtering_trace_eq (tr1 tr2 trGet : Transport) (st : State) :
    (async_get_ipv6_filtering tr1 tr2 trGet st).2.1 = (ensureToken tr1 tr2 st).2.1 ∨
    (async_get_ipv6_filtering tr1 tr2 trGet st).2.1
      = (ensureToken tr1 tr2 st).2.1 ++ [Call.getter CMD_GET_IPV6_FILTER_RULE] := by
  unfold async_get_ipv6_filtering
  rcases he : ensureToken tr1 tr2 st with ⟨st1, cs, res⟩
  cases res with
  | error e => left; rfl
  | ok u =>
    dsimp only
    rcases hg : async_ws_get_function CMD_GET_IPV6_FILTER_RULE trGet
        { st1 with ipv6_filters := [], ipv6_filters_time := none } with ⟨st3, cs2, res2⟩
    have hcs2 : cs2 = [Call.getter CMD_GET_IPV6_FILTER_RULE] := by
      have h := ws_get_trace CMD_GET_IPV6_FILTER_RULE trGet
        ({ st1 with ipv6_filters := [], ipv6_filters_time := none } : State)
      rw [hg] at h
      exact h
    subst hcs2
    right
    cases res2 with
    | error e => rfl
    | ok raw =>
      cases raw with
      | malformed => rfl
      | xml root =>
        dsimp only
        rcases hf : ipv6Fold (root.iterTag "instance") [] with ⟨fs, res3⟩
        cases res3 with
        | error e =>
          by_cases hca : e = PyErr.parseError ∨ e = PyErr.typeError <;>
            simp [fromstring, hf, hca]
        | ok u2 =>
          cases hd : decodeFiltersTime root with
          | ok ftm => simp [fromstring, hf, hd]
          | error e2 =>
            by_cases hca : e2 = PyErr.parseError ∨ e2 = PyErr.typeError <;>
              simp [fromstring, hf, hd, hca]

theorem get_filtering_no_setter (tr1 tr2 trGet : Transport) (st : State)
    (fn : Int) (ps : List (String × String)) :
    Call.setter fn ps ∉ (async_get_ipv6_filtering tr1 tr2 trGet st).2.1 := by
  intro hmem
  rcases get_filtering_trace_eq tr1 tr2 trGet st with h | h <;> rw [h] at hmem
  · rcases ensureToken_trace tr1 tr2 st _ hmem with h2 | h2 <;> cases h2
  · rcases List.mem_append.mp hmem with h2 | h2
    · rcases ensureToken_trace tr1 tr2 st _ h2 with h3 | h3 <;> cases h3
    · simp at h2

theorem toggleEntries_none (idd : Int) (fs : List Ipv6FilterInstance)
    (h : ∀ f ∈ fs, f.idd ≠ idd) :
    toggleEntries idd (fs.map (fun f => ⟨f.idd, f.enabled⟩)) = none := by
  induction fs with
  | nil => rfl
  | cons f rest ih =>
    have hf : ¬ ((⟨f.idd, f.enabled⟩ : FilterState).idd = idd) :=
      h f (List.mem_cons_self f rest)
    simp only [List.map_cons, toggleEntries, if_neg hf]
    rw [ih (fun g hg => h g (List.mem_cons_of_mem f hg))]

/-- Claim C5 (amended): toggling a filter id that the freshly fetched
filter set does not contain issues no setter request — but the
state-fetch getter (and a login, when needed) is still issued — returns
the explicit not-found result `None`, and leaves the client state exactly
as the fetch left it, i.e. the stored filters are the freshly fetched
set, not necessarily the pre-call one. -/
theorem c5_theorem :
    ∀ (idd : Int) (tr1 tr2 trGet tr3 tr4 trSet : Transport) (st st1 : State)
      (cs : List Call),
      async_get_ipv6_filtering tr1 tr2 trGet st = (st1, cs, .ok ()) →
      (∀ f ∈ st1.ipv6_filters, f.idd ≠ idd) →
      async_toggle_ipv6_filter idd tr1 tr2 trGet tr3 tr4 trSet st = (st1, cs, .ok none) ∧
      (∀ (fn : Int) (ps : List (String × String)), Call.setter fn ps ∉ cs) := by
  intro idd tr1 tr2 trGet tr3 tr4 trSet st st1 cs hget hnone
  constructor
  · unfold async_toggle_ipv6_filter async_get_ipv6_filter_states
    rw [hget]
    dsimp only
    rw [toggleEntries_none idd st1.ipv6_filters hnone]
  · intro fn ps hmem
    have h := get_filtering_no_setter tr1 tr2 trGet st fn ps
    rw [hget] at h
    exact h hmem

/-- The device's filter table used in the concrete C5 run. -/
def xmlFilters : Xml :=
  .mk "filters" none
    [ .mk "instance" none
        [ el1 "idd" "1", el1 "src_addr" "2001:db8::2", el1 "src_prefix" "64",
          el1 "dst_addr" "2001:db8::1", el1 "dst_prefix" "64",
          el1 "src_sport" "0", el1 "src_eport" "65535",
          el1 "dst_sport" "0", el1 "dst_eport" "65535",
          el1 "protocol" "254", el1 "allow" "1", el1 "enabled" "1" ],
      el1 "time_mode" "0" ]

/-- The decoded filter instance of `xmlFilters`. -/
def c5newFilter : Ipv6FilterInstance :=
  { idd := 1, srcAddr := some "2001:db8::2", srcPfx := 64, dstAddr := "2001:db8::1",
    dstPfx := 64, srcPortStart := 0, srcPortEnd := 65535, dstPortStart := 0,
    dstPortEnd := 65535, protocol := 254, allow := 1, enabled := 1 }

/-- A stale filter previously stored on the client, absent from the
device's current table. -/
def oldFilter : Ipv6FilterInstance :=
  { idd := 5, srcAddr := none, srcPfx := 0, dstAddr := "::", dstPfx := 0,
    srcPortStart := 0, srcPortEnd := 0, dstPortStart := 0, dstPortEnd := 0,
    protocol := 0, allow := 0, enabled := 0 }

def stWithOld : State := { stTok with ipv6_filters := [oldFilter] }

def c5run : State × List Call × Except PyErr (Option Bool) :=
  async_toggle_ipv6_filter 2 .err .err (.ok ⟨200, some "t1", .xml xmlFilters⟩)
    .err .err .err stWithOld

/-- Claim C5, counterexample: toggling the absent id 2 does issue a
network call (the filter-state fetch, `getter 111`), and the stored
filter collection afterwards is the freshly fetched table, different from
the one stored before the call — refuting both the no-network-call and
the collection-unchanged parts (the `None` result itself holds). -/
theorem c5_counterexample :
    c5run.2.1 = [Call.getter 111] ∧
    c5run.2.2 = .ok none ∧
    c5run.1.ipv6_filters ≠ stWithOld.ipv6_filters := by decide

def c5fetched : State :=
  { stWithOld with
    token := some "t1"
    ipv6_filters := [c5newFilter]
    ipv6_filters_time := some ⟨0, none, some "0,0,0,0,0,0,0"⟩ }

theorem c5_witness :
    async_toggle_ipv6_filter 2 .err .err (.ok ⟨200, some "t1", .xml xmlFilters⟩)
        .err .err .err stWithOld = (c5fetched, [Call.getter 111], .ok none) :=
  (c5_theorem 2 .err .err (.ok ⟨200, some "t1", .xml xmlFilters⟩) .err .err .err
    stWithOld c5fetched [Call.getter 111] (by decide) (by decide)).1

/-! ## Claim C6 -/

/-- The service-flow loop on a well-decoded prefix followed by a flow
with a direction outside one and two: the whole fold ends in
`ParseError`, and the accumulated lists have grown by exactly the prefix
flows. -/
theorem serviceFlowsFold_bad :
    ∀ (pre : List Xml) (bad : Xml) (rest : List Xml) (ds us : List ServiceFlow),
      (∀ el ∈ pre, ∃ f d, decodeServiceFlow el = .ok f ∧
        serviceFlowDirection el = .ok d ∧ (d = 1 ∨ d = 2)) →
      (∃ sf, decodeServiceFlow bad = .ok sf) →
      (∃ k, serviceFlowDirection bad = .ok k ∧ k ≠ 1 ∧ k ≠ 2) →
      ∃ ds2 us2, serviceFlowsFold (pre ++ bad :: rest) ds us
          = (ds2, us2, .error .parseError) ∧
        ds2.length + us2.length = ds.length + us.length + pre.length := by
  intro pre
  induction pre with
  | nil =>
    intro bad rest ds us _ hsf hdir
    obtain ⟨sf, hsf⟩ := hsf
    obtain ⟨k, hk, hk1, hk2⟩ := hdir
    refine ⟨ds, us, ?_, by simp⟩
    simp [serviceFlowsFold, hsf, hk, hk1, hk2]
  | cons el pre ih =>
    intro bad rest ds us hall hsf hdir
    obtain ⟨f, d, hf, hd, hcase⟩ := hall el (List.mem_cons_self el pre)
    have hall2 : ∀ x ∈ pre, ∃ g k, decodeServiceFlow x = .ok g ∧
        serviceFlowDirection x = .ok k ∧ (k = 1 ∨ k = 2) :=
      fun x hx => hall x (List.mem_cons_of_mem el hx)
    rcases hcase with rfl | rfl
    · obtain ⟨ds2, us2, heq, hlen⟩ := ih bad rest (ds ++ [f]) us hall2 hsf hdir
      refine ⟨ds2, us2, ?_, ?_⟩
      · rw [List.cons_append]
        simp only [serviceFlowsFold, hf, hd]
        simpa using heq
      · simp at hlen ⊢
        omega
    · obtain ⟨ds2, us2, heq, hlen⟩ := ih bad rest ds (us ++ [f]) hall2 hsf hdir
      refine ⟨ds2, us2, ?_, ?_⟩
      · rw [List.cons_append]
        simp only [serviceFlowsFold, hf, hd]
        simpa using heq
      · simp at hlen ⊢
        omega

/-- Claim C6 (amended): a service-flow response with a direction outside
one and two fails the whole operation with `NoDataAvailable` and clears
the token; the flow lists were cleared at the start of the operation, so
afterwards they hold exactly the flows decoded before the bad one — a
partial decode, possibly nonempty — and the status record decoded before
the loop stays stored. -/
theorem c6_theorem :
    (∀ (st : State) (t0 c : String) (r : HttpResponse) (root : Xml)
       (cstat : CmStatus) (ds us : List ServiceFlow),
      st.token = some t0 → r.status = 200 → r.sessionToken = some c →
      r.body = .xml root →
      decodeCmStatusFields root = .ok cstat →
      serviceFlowsFold (root.iterTag "serviceflow") [] [] = (ds, us, .error .parseError) →
      (async_get_cmstatus_and_service_flows .err .err (.ok r) st).2.2
          = .error .noDataAvailable ∧
      (async_get_cmstatus_and_service_flows .err .err (.ok r) st).1.token = none ∧
      (async_get_cmstatus_and_service_flows .err .err (.ok r) st).1.downstream_service_flows
          = ds ∧
      (async_get_cmstatus_and_service_flows .err .err (.ok r) st).1.upstream_service_flows
          = us ∧
      (async_get_cmstatus_and_service_flows .err .err (.ok r) st).1.cmstatus = some cstat) ∧
    (∀ (pre : List Xml) (bad : Xml) (rest : List Xml),
      (∀ el ∈ pre, ∃ f d, decodeServiceFlow el = .ok f ∧
        serviceFlowDirection el = .ok d ∧ (d = 1 ∨ d = 2)) →
      (∃ sf, decodeServiceFlow bad = .ok sf) →
      (∃ k, serviceFlowDirection bad = .ok k ∧ k ≠ 1 ∧ k ≠ 2) →
      ∃ ds2 us2, serviceFlowsFold (pre ++ bad :: rest) [] []
          = (ds2, us2, .error .parseError) ∧ ds2.length + us2.length = pre.length) := by
  constructor
  · intro st t0 c r root cstat ds us htok h200 hc hb hdecode hfold
    have he := ensureToken_of_some (Transport.err) (Transport.err) st t0 htok
    have hg := ws_get_success CMD_CMSTATUS r
      { st with cmstatus := none, downstream_service_flows := [],
                upstream_service_flows := [] } c h200 hc
    rw [hb] at hg
    simp [async_get_cmstatus_and_service_flows, he, hg, fromstring, hdecode, hfold]
  · intro pre bad rest hall hsf hdir
    obtain ⟨ds2, us2, heq, hlen⟩ := serviceFlowsFold_bad pre bad rest [] [] hall hsf hdir
    exact ⟨ds2, us2, heq, by simpa using hlen⟩

def sfEl (sfid dir : String) : Xml :=
  .mk "serviceflow" none
    [ el1 "Sfid" sfid, el1 "pMaxTrafficRate" "10", el1 "pMaxTrafficBurst" "20",
      el1 "pMinReservedRate" "0", el1 "pMaxConcatBurst" "30",
      el1 "pSchedulingType" "2", el1 "direction" dir ]

/-- A CM-status body carrying one downstream flow followed by a flow with
the invalid direction three. -/
def xmlFlows : Xml :=
  .mk "cmstatus" none
    [ el1 "provisioning_st" "Online", el1 "cm_comment" "ok",
      el1 "cm_docsis_mode" "3.0", el1 "cm_network_access" "Allowed",
      el1 "NumberOfCpes" "2", el1 "FileName" "fw.bin", el1 "dMaxCpes" "5",
      el1 "bpiEnable" "1", sfEl "1" "1", sfEl "2" "3" ]

def c6run : State × List Call × Except PyErr Unit :=
  async_get_cmstatus_and_service_flows .err .err
    (.ok ⟨200, some "t1", .xml xmlFlows⟩) stTok

/-- Claim C6, counterexample: after decoding one good downstream flow the
second flow's direction `3` aborts the operation with `NoDataAvailable`
(token cleared), but the stored downstream list holds the first flow —
the lists are partially populated, not left empty. -/
theorem c6_counterexample :
    c6run.2.2 = .error .noDataAvailable ∧
    c6run.1.downstream_service_flows =
      [{ id := 1, pMaxTrafficRate := 10, pMaxTrafficBurst := 20,
         pMinReservedRate := 0, pMaxConcatBurst := 30, pSchedulingType := 2 }] ∧
    c6run.1.token = none := by decide

def c6cmstatus : CmStatus :=
  { provisioningStatus := some "Online", cmComment := some "ok",
    cmDocsisMode := some "3.0", cmNetworkAccess := some "Allowed",
    numberOfCpes := 2, firmwareFilename := some "fw.bin", dMaxCpes := 5,
    bpiEnable := 1 }

theorem c6_witness :
    c6run.2.2 = .error .noDataAvailable ∧
    c6run.1.token = none ∧
    c6run.1.downstream_service_flows =
      [{ id := 1, pMaxTrafficRate := 10, pMaxTrafficBurst := 20,
         pMinReservedRate := 0, pMaxConcatBurst := 30, pSchedulingType := 2 }] ∧
    c6run.1.upstream_service_flows = [] ∧
    c6run.1.cmstatus = some c6cmstatus :=
  c6_theorem.1 stTok "t0" "t1" ⟨200, some "t1", .xml xmlFlows⟩ xmlFlows c6cmstatus
    [{ id := 1, pMaxTrafficRate := 10, pMaxTrafficBurst := 20,
       pMinReservedRate := 0, pMaxConcatBurst := 30, pSchedulingType := 2 }] []
    rfl rfl rfl rfl (by decide) (by decide)

/-! ## Claim C7 -/

theorem dch_ne_colon : ∀ k < 10, dch k ≠ ':' := by decide

theorem lease_time_conv_mk (l : List Char) :
    lease_time_conv (some ⟨l⟩)
      = (match strptimeLeaseAux l with
         | some v => .ok v
         | none => .error .valueError) := rfl

/-- Claim C7, counterexample: the parsed hour is taken from the string,
not forced to zero — `00:05:30:10` and `00:00:30:10` decode to different
values — while a lease-time whose leading component is not literally `00`
is rejected outright rather than decoded as if it were zero. -/
theorem c7_counterexample :
    lease_time_conv (some "00:05:30:10") = .ok (5, 30, 10) ∧
    lease_time_conv (some "00:00:30:10") = .ok (0, 30, 10) ∧
    lease_time_conv (some "00:05:30:10") ≠ lease_time_conv (some "00:00:30:10") ∧
    lease_time_conv (some "05:00:30:10") = .error .valueError := by decide

/-- Claim C7 (amended): the lease-time pattern is the literal `00`
followed by `:%H:%M:%S` — a string whose leading component is not
literally `00` fails the parse with `ValueError`, and the hours, minutes
and seconds that follow are parsed and honoured as written (the hour is
not treated as zero). -/
theorem c7_theorem :
    (∀ h m s : Nat, h < 24 → m < 60 → s < 60 →
      lease_time_conv (some (String.mk
          ('0' :: '0' :: ':' :: (pad2 h ++ (':' :: (pad2 m ++ (':' :: pad2 s)))))))
        = .ok (h, m, s)) ∧
    (∀ (a b : Nat) (rest : List Char), a < 10 → b < 10 → ¬ (a = 0 ∧ b = 0) →
      lease_time_conv (some (String.mk (dch a :: dch b :: rest)))
        = .error .valueError) := by
  constructor
  · intro h m s hh hm hs
    have p1 := parseField2_pad2 23 h (':' :: (pad2 m ++ (':' :: pad2 s)))
      (by omega) (by omega)
    have p2 := parseField2_pad2 59 m (':' :: pad2 s) (by omega) (by omega)
    have p3 : parseField2 61 (pad2 s) = some (s, []) := by
      rw [show pad2 s = pad2 s ++ [] from (List.append_nil _).symm]
      exact parseField2_pad2 61 s [] (by omega) (by omega)
    have e1 : strptimeLeaseAux
        ('0' :: '0' :: ':' :: (pad2 h ++ (':' :: (pad2 m ++ (':' :: pad2 s)))))
        = some (h, m, s) := by
      simp [strptimeLeaseAux, expectChar, p1, p2, p3]
    rw [lease_time_conv_mk, e1]
  · intro a b rest ha hb hab
    have e1 : strptimeLeaseAux (dch a :: dch b :: rest) = none := by
      by_cases h0 : a = 0
      · subst h0
        have hb0 : b ≠ 0 := fun hbe => hab ⟨rfl, hbe⟩
        have hbz : ¬ (dch b = '0') := fun hbe => hb0 ((dch_eq_zero_iff b hb).mp hbe)
        have h00 : dch 0 = '0' := by decide
        simp [strptimeLeaseAux, expectChar, h00, hbz]
      · have haz : ¬ (dch a = '0') := fun hae => h0 ((dch_eq_zero_iff a ha).mp hae)
        simp [strptimeLeaseAux, expectChar, haz]
    rw [lease_time_conv_mk, e1]

theorem c7_witness :
    lease_time_conv (some (String.mk
        ('0' :: '0' :: ':' :: (pad2 5 ++ (':' :: (pad2 30 ++ (':' :: pad2 10)))))))
      = .ok (5, 30, 10) :=
  c7_theorem.1 5 30 10 (by decide) (by decide) (by decide)

/-! ## Claim C8 -/

def mkGeneralTimeXml (t : String) : Xml :=
  .mk "root" none [.mk "GeneralTime" none [.mk "time" (some t) []]]

theorem dash_not_mem_part (x y : Nat) (hx : x < 100) (hy : y < 100) :
    '-' ∉ (pad2 x ++ (':' :: pad2 y)) := by
  intro hm
  rcases List.mem_append.mp hm with h | h
  · exact not_mem_pad2 '-' x hx dch_ne_dash h
  · rcases List.mem_cons.mp h with h | h
    · exact absurd h (by decide)
    · exact not_mem_pad2 '-' y hy dch_ne_dash h

theorem generalTimePart_pad (x y : Nat) (hx : x < 100) (hy : y < 100) :
    generalTimePart (pad2 x ++ (':' :: pad2 y))
      = .ok (toString ((x : Int) * 60 + (y : Int))) := by
  have hsplit : splitOnChar ':' (pad2 x ++ (':' :: pad2 y)) = [pad2 x, pad2 y] := by
    rw [splitOnChar_append ':' (pad2 x) (pad2 y) (not_mem_pad2 ':' x hx dch_ne_colon),
        splitOnChar_of_not_mem ':' (pad2 y) (not_mem_pad2 ':' y hy dch_ne_colon)]
  simp [generalTimePart, hsplit, pyIntStr, pyIntChars_pad2 x hx, pyIntChars_pad2 y hy]
  rfl

/-- Claim C8: decoding `08:15-17:45` as a general-time interval yields
`495,1065`, and in general every two-digit-rendered `HH:MM-HH:MM`
interval decodes to `<startMinutes>,<endMinutes>` with each minute count
computed as `hour * 60 + minute`. -/
theorem c8_theorem :
    parse_general_time (mkGeneralTimeXml "08:15-17:45") = .ok (some "495,1065") ∧
    (∀ h1 m1 h2 m2 : Nat, h1 < 100 → m1 < 100 → h2 < 100 → m2 < 100 →
      parse_general_time (mkGeneralTimeXml (String.mk
          ((pad2 h1 ++ (':' :: pad2 m1)) ++ '-' :: (pad2 h2 ++ (':' :: pad2 m2)))))
        = .ok (some (toString ((h1 : Int) * 60 + (m1 : Int)) ++ ","
            ++ toString ((h2 : Int) * 60 + (m2 : Int))))) := by
  constructor
  · decide
  · intro h1 m1 h2 m2 hh1 hm1 hh2 hm2
    have hsplit : splitOnChar '-'
        ((pad2 h1 ++ (':' :: pad2 m1)) ++ '-' :: (pad2 h2 ++ (':' :: pad2 m2)))
        = [pad2 h1 ++ (':' :: pad2 m1), pad2 h2 ++ (':' :: pad2 m2)] := by
      rw [splitOnChar_append '-' _ _ (dash_not_mem_part h1 m1 hh1 hm1),
          splitOnChar_of_not_mem '-' _ (dash_not_mem_part h2 m2 hh2 hm2)]
    have hsplit2 : splitOnChar '-'
        (pad2 h1 ++ ':' :: (pad2 m1 ++ '-' :: (pad2 h2 ++ ':' :: pad2 m2)))
        = [pad2 h1 ++ ':' :: pad2 m1, pad2 h2 ++ ':' :: pad2 m2] := by
      simpa using hsplit
    simp [parse_general_time, mkGeneralTimeXml, Xml.findPath, Xml.findallPath,
      Xml.childrenWithTag, Xml.children, Xml.tag, Xml.text, hsplit, hsplit2,
      generalTimeParts, generalTimePart_pad h1 m1 hh1 hm1,
      generalTimePart_pad h2 m2 hh2 hm2]
    rfl

theorem c8_witness :
    parse_general_time (mkGeneralTimeXml (String.mk
        ((pad2 8 ++ (':' :: pad2 15)) ++ '-' :: (pad2 17 ++ (':' :: pad2 45)))))
      = .ok (some (toString ((8 : Int) * 60 + (15 : Int)) ++ ","
          ++ toString ((17 : Int) * 60 + (45 : Int)))) :=
  c8_theorem.2 8 15 17 45 (by decide) (by decide) (by decide) (by decide)

/-! ## Claim C9 -/

/-- The 24-bit day mask produced for the inclusive hour range `s..e`:
hour 0 is the most significant bit. -/
def dayMaskVal (s e : Nat) : Nat := (2 ^ (e + 1 - s) - 1) * 2 ^ (23 - e)

def mkDailyXml (dayText timeText : String) : Xml :=
  .mk "root" none
    [.mk "DailyTime" none
      [.mk "time_instance" none [el1 "daily" dayText, el1 "time" timeText]]]

theorem dailyStep_single (d s e : Nat) (hd1 : 1 ≤ d) (hd7 : d ≤ 7)
    (hs : s ≤ e) (he : e ≤ 23) :
    dailyStep (List.replicate 7 (List.replicate 24 0))
        (Xml.mk "time_instance" none
          [el1 "daily" (Nat.repr d), el1 "time" (Nat.repr s ++ "-" ++ Nat.repr e)])
      = .ok ((List.replicate 7 (List.replicate 24 0)).set (d - 1)
          (List.replicate s 0 ++ List.replicate (e + 1 - s) 1
            ++ List.replicate (23 - e) 0)) := by
  have hpd : pyInt (some (Nat.repr d)) = .ok (d : Int) := pyIntStr_repr24 d (by omega)
  have hps : pyIntStr (String.mk (Nat.repr s).data) = .ok (s : Int) :=
    pyIntStr_repr24 s (by omega)
  have hpe : pyIntStr (String.mk (Nat.repr e).data) = .ok (e : Int) :=
    pyIntStr_repr24 e (by omega)
  have hdata : (Nat.repr s ++ "-" ++ Nat.repr e).data
      = (Nat.repr s).data ++ '-' :: (Nat.repr e).data := by
    show ((Nat.repr s).data ++ ['-']) ++ (Nat.repr e).data
        = (Nat.repr s).data ++ '-' :: (Nat.repr e).data
    simp
  have hsplit : splitOnChar '-' ((Nat.repr s).data ++ '-' :: (Nat.repr e).data)
      = [(Nat.repr s).data, (Nat.repr e).data] := by
    rw [splitOnChar_append '-' _ _ (dash_not_mem_repr24 s (by omega)),
        splitOnChar_of_not_mem '-' _ (dash_not_mem_repr24 e (by omega))]
  have hcast : (d : Int) - 1 = ((d - 1 : Nat) : Int) := by omega
  have hrow : pyGetItem (List.replicate 7 (List.replicate 24 (0 : Nat))) ((d : Int) - 1)
      = .ok (List.replicate 24 0) := by
    rw [hcast]
    exact pyGetItem_nonneg _ _ (by simp only [List.length_replicate]; omega) _
      (by rw [List.getElem?_replicate, if_pos (by omega : d - 1 < 7)])
  have hset : pySetItem (List.replicate 7 (List.replicate 24 (0 : Nat))) ((d : Int) - 1)
      (List.replicate s 0 ++ List.replicate (e + 1 - s) 1 ++ List.replicate (23 - e) 0)
      = .ok ((List.replicate 7 (List.replicate 24 0)).set (d - 1)
          (List.replicate s 0 ++ List.replicate (e + 1 - s) 1
            ++ List.replicate (23 - e) 0)) := by
    rw [hcast]
    exact pySetItem_nonneg _ _ (by simp only [List.length_replicate]; omega) _
  have hfd : findText ((Xml.mk "time_instance" none
      [el1 "daily" (Nat.repr d),
       el1 "time" (Nat.repr s ++ "-" ++ Nat.repr e)]).find1 "daily")
      = .ok (some (Nat.repr d)) := rfl
  have hft : findText ((Xml.mk "time_instance" none
      [el1 "daily" (Nat.repr d),
       el1 "time" (Nat.repr s ++ "-" ++ Nat.repr e)]).find1 "time")
      = .ok (some (Nat.repr s ++ "-" ++ Nat.repr e)) := rfl
  have hbind : ∀ {α β : Type} (x : α) (f : α → Except PyErr β),
      (Except.ok x >>= f) = f x := fun _ _ => rfl
  simp only [dailyStep, hfd, hft, hbind, hpd, hdata, hsplit, hps, hpe,
    sliceAssign_replicate24 s e hs he, hrow, hset]

theorem set_replicate7 (i : Nat) (hi : i < 7) (v : String) :
    (List.replicate 7 "0").set i v
      = (List.range 7).map (fun j => if j = i then v else "0") := by
  interval_cases i <;> simp [List.range_succ]

/-- Claim C9: a daily-time schedule with the single entry day 1, hours
`0-23` decodes to seven comma-joined decimal masks `16777215,0,0,0,0,0,0`;
in general a single entry for day `d`, hours `s-e` puts
`(2^(e+1-s) - 1) * 2^(23-e)` in position `d-1` and zero elsewhere, and
that mask has exactly the bits of the hours in the inclusive range set
(hour `h` at bit `23-h`). -/
theorem c9_theorem :
    parse_daily_time (mkDailyXml "1" "0-23") = .ok (some "16777215,0,0,0,0,0,0") ∧
    (∀ d s e : Nat, 1 ≤ d → d ≤ 7 → s ≤ e → e ≤ 23 →
      parse_daily_time (mkDailyXml (Nat.repr d) (Nat.repr s ++ "-" ++ Nat.repr e))
        = .ok (some (String.intercalate ","
            ((List.range 7).map
              (fun i => if i = d - 1 then toString (dayMaskVal s e) else "0")))) ∧
      (∀ h : Nat, h < 24 →
        ((dayMaskVal s e).testBit (23 - h) = true ↔ s ≤ h ∧ h ≤ e))) := by
  constructor
  · decide
  · intro d s e hd1 hd7 hs he
    refine ⟨?_, fun h hh => dayMask_testBit s e h hs he hh⟩
    have hstep := dailyStep_single d s e hd1 hd7 hs he
    have hrowval : dayDec (List.replicate s 0 ++ List.replicate (e + 1 - s) 1
        ++ List.replicate (23 - e) 0) = dayMaskVal s e := dayDec_row s e hs he
    have hfind : (mkDailyXml (Nat.repr d)
        (Nat.repr s ++ "-" ++ Nat.repr e)).findallPath "DailyTime" "time_instance"
        = [Xml.mk "time_instance" none
            [el1 "daily" (Nat.repr d),
             el1 "time" (Nat.repr s ++ "-" ++ Nat.repr e)]] := rfl
    have hbind : ∀ {α β : Type} (x : α) (f : α → Except PyErr β),
        (Except.ok x >>= f) = f x := fun _ _ => rfl
    have h0 : toString (dayDec (List.replicate 24 0)) = "0" := by decide
    simp only [parse_daily_time, hfind, dailyLoop, hstep, hbind, List.map_set,
      List.map_replicate, hrowval, h0,
      set_replicate7 (d - 1) (by omega) (toString (dayMaskVal s e))]
    simp

theorem c9_witness :
    parse_daily_time (mkDailyXml (Nat.repr 2) (Nat.repr 3 ++ "-" ++ Nat.repr 5))
      = .ok (some (String.intercalate ","
          ((List.range 7).map
            (fun i => if i = 2 - 1 then toString (dayMaskVal 3 5) else "0")))) :=
  (c9_theorem.2 2 3 5 (by decide) (by decide) (by decide) (by decide)).1

/-! ## Claim C10 -/

/-- Claim C10, counterexample: a response with no `DailyTime` section
decodes to the zero-filled string `0,0,0,0,0,0,0`, not to the explicit
absent value `None`. -/
theorem c10_counterexample :
    parse_daily_time (Xml.mk "root" none []) = .ok (some "0,0,0,0,0,0,0") ∧
    parse_daily_time (Xml.mk "root" none []) ≠ .ok none := by decide

/-- Claim C10 (amended): an absent `GeneralTime` section yields the
explicit absent value `None`, but an absent `DailyTime` section yields
the zero-filled mask string `0,0,0,0,0,0,0` — the `None` branch of the
daily parser is unreachable because its output always has seven
entries. -/
theorem c10_theorem :
    ∀ root : Xml,
      (root.findPath "GeneralTime" "time" = none → parse_general_time root = .ok none) ∧
      (root.findallPath "DailyTime" "time_instance" = [] →
        parse_daily_time root = .ok (some "0,0,0,0,0,0,0")) := by
  intro root
  constructor
  · intro h
    simp [parse_general_time, h]
  · intro h
    unfold parse_daily_time
    rw [h]
    decide

theorem c10_witness :
    parse_general_time (Xml.mk "root" none []) = .ok none ∧
    parse_daily_time (Xml.mk "root" none []) = .ok (some "0,0,0,0,0,0,0") :=
  ⟨(c10_theorem (Xml.mk "root" none [])).1 rfl,
   (c10_theorem (Xml.mk "root" none [])).2 rfl⟩
